import Mathlib

/-!
Shallow embedding of `click_params/base.py`: the conversion/validation
adapters (`BaseParamType`, `ValidatorParamType`, `RangeParamType`,
`ListParamType`, `UnionParamType`, `EnumParamType`) built on top of the
argument-parsing framework's error-reporting mechanism.

Python exceptions are modelled as values of `PyExc` (an exception kind
plus payload); fallible code returns `Except PyExc α`.  A `convert`
method takes the raw string plus the optional parameter and context
objects (modelled as opaque `Option String` tokens) and either returns
the converted value or the raised exception.  String manipulation is
modelled over `List Char` so that every definition reduces in the
kernel.
-/

namespace ClickParams

/-- A Python exception: its class name (`kind`), message, and — for the
framework's validation error `BadParameter` — the parameter and context
objects it carries (absent fields are `none`, like Python `None`). -/
structure PyExc where
  kind : String
  message : String
  param : Option String := none
  ctx : Option String := none
deriving Repr, DecidableEq

/-- The framework interface each adapter implements: a display name and a
`convert(value, param, ctx)` operation. -/
structure ParamType (α : Type) where
  name : String
  convert : String → Option String → Option String → Except PyExc α

/-- Models the framework's `ParamType.fail` helper: raises the validation
error `BadParameter` carrying the message and the given parameter and
context. -/
def ParamType.fail {α : Type} (message : String) (param ctx : Option String) :
    Except PyExc α :=
  .error { kind := "BadParameter", message := message, param := param, ctx := ctx }

/-! ### String helpers modelling Python `str` methods over `List Char` -/

/-- `charsStart p s` holds when `p` is an initial segment of `s`
(models Python `str.startswith` on character lists). -/
def charsStart : List Char → List Char → Bool
  | [], _ => true
  | _ :: _, [] => false
  | p :: ps, c :: cs => (p == c) && charsStart ps cs

/-- Substring occurrence test over character lists. -/
def charsHaveSub (pattern : List Char) : List Char → Bool
  | [] => charsStart pattern []
  | c :: cs => charsStart pattern (c :: cs) || charsHaveSub pattern cs

/-- `strHasSub s pattern` models Python `pattern in s`. -/
def strHasSub (s pattern : String) : Bool :=
  charsHaveSub pattern.toList s.toList

/-- Models Python `str.strip(chars)`: removes leading and trailing
characters belonging to the character set `chars`; with an empty `chars`
nothing is removed. -/
def pyStripChars (s : String) (chars : String) : String :=
  let cs := chars.toList
  let l := s.toList.dropWhile (fun c => cs.contains c)
  String.mk ((l.reverse.dropWhile (fun c => cs.contains c)).reverse)

/-- Fuel-driven worker for `pySplitList`; `cur` is the current token in
reverse.  The fuel is set above the input length so it never runs out. -/
def splitCharsAux (sep : List Char) : Nat → List Char → List Char → List (List Char)
  | 0, cur, _ => [cur.reverse]
  | _ + 1, cur, [] => [cur.reverse]
  | fuel + 1, cur, c :: cs =>
    if charsStart sep (c :: cs) then
      cur.reverse :: splitCharsAux sep fuel [] (List.drop (sep.length - 1) cs)
    else
      splitCharsAux sep fuel (c :: cur) cs

/-- Models Python `str.split(sep)` for a non-empty separator: greedy
left-to-right non-overlapping splitting, keeping empty tokens. -/
def pySplitList (s sep : String) : List String :=
  (splitCharsAux sep.toList (s.toList.length + 1) [] s.toList).map String.mk

/-- Models Python `str.split(sep)` including the `ValueError` raised on an
empty separator. -/
def pySplit (s sep : String) : Except PyExc (List String) :=
  if sep = "" then .error { kind := "ValueError", message := "empty separator" }
  else .ok (pySplitList s sep)

/-- Models Python `str.upper()` (ASCII case mapping, which covers every
input exercised here). -/
def pyUpper (s : String) : String :=
  String.mk (s.toList.map Char.toUpper)

/-- Decimal digit run to a number, `none` on a non-digit. -/
def digitsVal (cs : List Char) : Option Nat :=
  cs.foldl
    (fun acc c =>
      match acc with
      | none => none
      | some n => if c.isDigit then some (n * 10 + (c.toNat - 48)) else none)
    (some 0)

/-- Models Python `int(s)` on string input: surrounding whitespace is
ignored, an optional sign is followed by decimal digits; anything else is
rejected. -/
def pyParseInt (s : String) : Option Int :=
  let l := s.toList.dropWhile Char.isWhitespace
  let l := (l.reverse.dropWhile Char.isWhitespace).reverse
  let (sign, digits) :=
    match l with
    | '-' :: rest => ((-1 : Int), rest)
    | '+' :: rest => ((1 : Int), rest)
    | _ => ((1 : Int), l)
  match digits with
  | [] => none
  | _ =>
    match digitsVal digits with
    | some n => some (sign * n)
    | none => none

/-- Python repr of a string, simplified to the single-quote form used by
the inputs exercised here (written without a literal apostrophe). -/
def squote : String := String.singleton (Char.ofNat 39)

/-- Models Python `str(l)` for a list of strings, e.g. a two-element list
renders as `[ 'a', 'b' ]` without the spaces after `[` and before `]`. -/
def pyStrOfStrList (l : List String) : String :=
  "[" ++ String.intercalate ", " (l.map (fun s => squote ++ s ++ squote)) ++ "]"

/-! ### `BaseParamType` (the spec's TypeCoercionAdapter) -/

/-- `BaseParamType`: wraps a conversion function `type_fn` (Python
`self._type`, modelled as returning `Except`) and the tuple of designated
exception kinds `errors` (Python `self._errors`, modelled by class name). -/
structure BaseParamType (α : Type) where
  type_fn : String → Except PyExc α
  errors : List String
  name : String

/-- The `'{value} is not a valid %s' % self._name` message template. -/
def BaseParamType.errorMessage {α : Type} (t : BaseParamType α) (value : String) : String :=
  value ++ " is not a valid " ++ t.name

/-- `BaseParamType.convert`: `try: return self._type(value) except
self._errors: self.fail(...)` — a designated exception kind becomes a
validation failure, any other exception propagates. -/
def BaseParamType.convert {α : Type} (t : BaseParamType α) (value : String)
    (param ctx : Option String) : Except PyExc α :=
  match t.type_fn value with
  | .ok v => .ok v
  | .error e =>
    if t.errors.contains e.kind then ParamType.fail (t.errorMessage value) param ctx
    else .error e

/-- View a `BaseParamType` through the framework interface. -/
def BaseParamType.toParamType {α : Type} (t : BaseParamType α) : ParamType α :=
  { name := t.name, convert := t.convert }

/-- The integer conversion function: `int(value)`, raising `ValueError` on
a malformed literal. -/
def pyIntFn (value : String) : Except PyExc Int :=
  match pyParseInt value with
  | some n => .ok n
  | none =>
    .error { kind := "ValueError",
             message := "invalid literal for int() with base 10: " ++ value }

/-- The integer adapter used by the examples: a `BaseParamType` over
`int` with `ValueError` as its designated error kind. -/
def intBase : BaseParamType Int :=
  { type_fn := pyIntFn, errors := ["ValueError"], name := "integer" }

/-- The integer adapter through the framework interface. -/
def INT : ParamType Int := intBase.toParamType

/-! ### `ValidatorParamType` (the spec's PredicateValidatorAdapter) -/

/-- `ValidatorParamType`: wraps a boolean callback; the raw value passes
through unchanged when the callback accepts it. -/
structure ValidatorParamType where
  callback : String → Bool
  name : String

/-- `ValidatorParamType.convert`: fail when the callback rejects,
otherwise return the value unchanged. -/
def ValidatorParamType.convert (t : ValidatorParamType) (value : String)
    (param ctx : Option String) : Except PyExc String :=
  if t.callback value then .ok value
  else ParamType.fail (value ++ " is not a valid " ++ t.name) param ctx

/-! ### `RangeParamType` -/

/-- `RangeParamType`: wraps an inner adapter and optional bounds with a
clamp flag. -/
structure RangeParamType (α : Type) where
  param_type : ParamType α
  minimum : Option α := none
  maximum : Option α := none
  clamp : Bool := false

/-- `RangeParamType.convert`, mirroring the Python control flow: convert
through the inner adapter, compute the two bound flags, clamp if asked,
otherwise fail with one of the three messages selected by which bounds are
set, else return the converted value. -/
def RangeParamType.convert {α : Type} [LinearOrder α] [ToString α]
    (t : RangeParamType α) (value : String) (param ctx : Option String) :
    Except PyExc α :=
  match t.param_type.convert value param ctx with
  | .error e => .error e
  | .ok converted_value =>
    let inferior_to_minimum : Bool :=
      match t.minimum with
      | some m => decide (converted_value < m)
      | none => false
    let superior_to_maximum : Bool :=
      match t.maximum with
      | some m => decide (m < converted_value)
      | none => false
    if t.clamp && inferior_to_minimum then
      .ok (t.minimum.getD converted_value)
    else if t.clamp && superior_to_maximum then
      .ok (t.maximum.getD converted_value)
    else if inferior_to_minimum || superior_to_maximum then
      match t.minimum, t.maximum with
      | none, some maxv =>
        ParamType.fail
          (toString converted_value ++ " is bigger than the maximum valid value " ++
            toString maxv ++ ".") param ctx
      | some minv, none =>
        ParamType.fail
          (toString converted_value ++ " is smaller than the minimum valid value " ++
            toString minv ++ ".") param ctx
      | some minv, some maxv =>
        ParamType.fail
          (toString converted_value ++ " is not in the valid range of " ++
            toString minv ++ " to " ++ toString maxv ++ ".") param ctx
      | none, none => .ok converted_value
    else
      .ok converted_value

/-- The `RangeAdapter` of the examples: integer inner adapter, bounds 1
and 10. -/
def intRange110 (clamp : Bool) : RangeParamType Int :=
  { param_type := INT, minimum := some 1, maximum := some 10, clamp := clamp }

/-! ### `ListParamType` -/

/-- A Python value as far as the dynamic `isinstance(separator, str)`
check can observe it: a string or some non-string value. -/
inductive PyValue where
  | str (s : String)
  | int (n : Int)
  | bool (b : Bool)
  | none_
  | list (elems : List String)
deriving Repr, DecidableEq

/-- `ListParamType`: wraps an inner adapter and a separator string. -/
structure ListParamType (α : Type) where
  param_type : ParamType α
  separator : String
  name : String

/-- `ListParamType.__init__`: raises `TypeError` when the separator is
not a string, otherwise stores the configuration. -/
def ListParamType.init {α : Type} (param_type : ParamType α) (separator : PyValue)
    (name : String) : Except PyExc (ListParamType α) :=
  match separator with
  | PyValue.str s => .ok { param_type := param_type, separator := s, name := name }
  | _ => .error { kind := "TypeError", message := "separator must be a string" }

/-- The `'These items are not %s: {errors}' % self._name` message. -/
def ListParamType.errorMessage {α : Type} (t : ListParamType α)
    (errors : List String) : String :=
  "These items are not " ++ t.name ++ ": " ++ pyStrOfStrList errors

/-- `ListParamType._strip_separator`: strip heading and trailing separator
characters. -/
def ListParamType.stripSeparator {α : Type} (t : ListParamType α)
    (expression : String) : String :=
  pyStripChars expression t.separator

/-- The loop body of `_convert_expression_to_list`: convert each item with
`(item, None, None)`, collecting failing raw items into `errors` and
converted values into `converted_items`; only `BadParameter` is caught,
any other exception propagates at the point it is raised. -/
def convertItemsLoop {α : Type} (pt : ParamType α) :
    List String → Except PyExc (List String × List α)
  | [] => .ok ([], [])
  | item :: rest =>
    match pt.convert item none none with
    | .ok v =>
      match convertItemsLoop pt rest with
      | .ok (errors, converted_items) => .ok (errors, v :: converted_items)
      | .error e => .error e
    | .error e =>
      if e.kind = "BadParameter" then
        match convertItemsLoop pt rest with
        | .ok (errors, converted_items) => .ok (item :: errors, converted_items)
        | .error e2 => .error e2
      else .error e

/-- `ListParamType._convert_expression_to_list`: split the expression on
the separator (which raises on an empty separator) and run the conversion
loop. -/
def ListParamType.convertExpressionToList {α : Type} (t : ListParamType α)
    (expression : String) : Except PyExc (List String × List α) :=
  match pySplit expression t.separator with
  | .error e => .error e
  | .ok items => convertItemsLoop t.param_type items

/-- `ListParamType.convert`: strip, split and convert; if any item failed,
fail with the aggregate message, otherwise return the converted list. -/
def ListParamType.convert {α : Type} (t : ListParamType α) (value : String)
    (param ctx : Option String) : Except PyExc (List α) :=
  let value := t.stripSeparator value
  match t.convertExpressionToList value with
  | .error e => .error e
  | .ok (errors, converted_list) =>
    if errors = [] then .ok converted_list
    else ParamType.fail (t.errorMessage errors) param ctx

/-- The list-of-integers adapter used by the examples: comma separator
over the integer adapter. -/
def intList : ListParamType Int :=
  { param_type := INT, separator := ",", name := "integer" }

/-! ### `UnionParamType` -/

/-- `UnionParamType`: an ordered sequence of candidate adapters. -/
structure UnionParamType (α : Type) where
  param_types : List (ParamType α)
  name : String

/-- The `'{value} is not a valid %s' % self._name` message. -/
def UnionParamType.errorMessage {α : Type} (t : UnionParamType α)
    (value : String) : String :=
  value ++ " is not a valid " ++ t.name

/-- The candidate loop of `UnionParamType.convert`: `some` of the first
candidate's outcome that is not a caught `BadParameter` (a success, or a
propagating exception of another kind), `none` when every candidate fails
validation. -/
def tryParamTypes {α : Type} (pts : List (ParamType α)) (value : String)
    (param ctx : Option String) : Option (Except PyExc α) :=
  match pts with
  | [] => none
  | pt :: rest =>
    match pt.convert value param ctx with
    | .ok v => some (.ok v)
    | .error e =>
      if e.kind = "BadParameter" then tryParamTypes rest value param ctx
      else some (.error e)

/-- `UnionParamType.convert`: try each candidate in order; note that the
final `self.fail(...)` call passes no parameter and no context. -/
def UnionParamType.convert {α : Type} (t : UnionParamType α) (value : String)
    (param ctx : Option String) : Except PyExc α :=
  match tryParamTypes t.param_types value param ctx with
  | some r => r
  | none => ParamType.fail (t.errorMessage value) none none

/-! ### `EnumParamType` -/

/-- `EnumParamType`: an enumeration modelled by its type name and the
list of its member names (a member is identified by its name, which is
what `Enum[value]` looks up); plus the case-normalization flag. -/
structure EnumParamType where
  enum_name : String
  members : List String
  transform_upper : Bool := true

/-- `EnumParamType.convert`: optionally upper-case, look up by member
name, and on a `KeyError` raise `BadParameter` (with no parameter and no
context) using the post-normalization value in the message. -/
def EnumParamType.convert (t : EnumParamType) (value : String)
    (_param _ctx : Option String) : Except PyExc String :=
  let value := if t.transform_upper then pyUpper value else value
  if t.members.contains value then .ok value
  else
    .error { kind := "BadParameter",
             message := "Unknown " ++ t.enum_name ++ " value: " ++ value,
             param := none, ctx := none }

/-- The `Color` enumeration of the examples, with members RED and GREEN. -/
def Color : EnumParamType :=
  { enum_name := "Color", members := ["RED", "GREEN"], transform_upper := true }

/-! ### Outcome observers and concrete example adapters -/

/-- `true` when the outcome is a success (no exception raised). -/
def resOk {α : Type} (r : Except PyExc α) : Bool :=
  match r with
  | .ok _ => true
  | .error _ => false

/-- The converted value of a successful outcome. -/
def resValue {α : Type} (r : Except PyExc α) : Option α :=
  match r with
  | .ok v => some v
  | .error _ => none

/-- `true` when the outcome is a success or a `BadParameter` validation
failure — the only exception kind the list and union adapters catch. -/
def okOrValidationError {α : Type} (r : Except PyExc α) : Bool :=
  match r with
  | .ok _ => true
  | .error e => e.kind == "BadParameter"

/-- `true` when the outcome is a `BadParameter` validation failure. -/
def failsValidation {α : Type} (r : Except PyExc α) : Bool :=
  match r with
  | .ok _ => false
  | .error e => e.kind == "BadParameter"

/-- An integer-valued adapter that never fails, used to observe that an
earlier union candidate wins. -/
def zeroAdapter : ParamType Int :=
  { name := "zero", convert := fun _ _ _ => .ok 0 }

/-- An adapter raising a non-validation exception, used to observe that a
union does not swallow other error kinds. -/
def boomAdapter : ParamType Int :=
  { name := "boom",
    convert := fun _ _ _ => .error { kind := "TypeError", message := "boom" } }

/-- A union whose first candidate is the integer adapter. -/
def numberUnion : UnionParamType Int :=
  { param_types := [INT, zeroAdapter], name := "number" }

/-- A union with a misbehaving middle candidate. -/
def fragileUnion : UnionParamType Int :=
  { param_types := [INT, boomAdapter, zeroAdapter], name := "number" }

/-- A single-candidate union over the integer adapter. -/
def intUnion : UnionParamType Int :=
  { param_types := [INT], name := "number" }

/-- A predicate-validator adapter accepting only nonempty strings. -/
def nonEmptyValidator : ValidatorParamType :=
  { callback := fun s => !(s == ""), name := "nonempty string" }

/-! ## Theorems -/

/-- Claim C5: a `BaseParamType` built from a conversion function and a set
of designated error kinds converts by invoking the function: a designated
error kind becomes the validation failure `"{raw} is not a valid {name}"`,
any other exception kind propagates uncaught, and otherwise the function's
result is returned. -/
theorem baseParamType_convert_spec {α : Type} (t : BaseParamType α) (value : String)
    (param ctx : Option String) :
    (∀ e, t.type_fn value = .error e → t.errors.contains e.kind = true →
      t.convert value param ctx =
        .error { kind := "BadParameter",
                 message := value ++ " is not a valid " ++ t.name,
                 param := param, ctx := ctx }) ∧
    (∀ e, t.type_fn value = .error e → t.errors.contains e.kind = false →
      t.convert value param ctx = .error e) ∧
    (∀ v, t.type_fn value = .ok v → t.convert value param ctx = .ok v) := by
  refine ⟨fun e he hk => ?_, fun e he hk => ?_, fun v hv => ?_⟩
  · have hk2 : e.kind ∈ t.errors := by simpa using hk
    simp [BaseParamType.convert, BaseParamType.errorMessage, ParamType.fail, he, hk2]
  · have hk2 : e.kind ∉ t.errors := by simpa using hk
    simp [BaseParamType.convert, BaseParamType.errorMessage, ParamType.fail, he, hk2]
  · simp [BaseParamType.convert, hv]

/-- Witness for C5: the integer adapter on `"abc"`: `int` raises the
designated `ValueError`, so `convert` fails with the validation message
(carrying the parameter and context it was given). -/
theorem baseParamType_convert_witness :
    intBase.convert "abc" (some "p") (some "c") =
      .error { kind := "BadParameter", message := "abc is not a valid integer",
               param := some "p", ctx := some "c" } :=
  (baseParamType_convert_spec intBase "abc" (some "p") (some "c")).1
    { kind := "ValueError", message := "invalid literal for int() with base 10: abc" }
    (by rfl) (by rfl)

/-- Claim C1 is false as stated: with both bounds set (minimum 1, maximum
10, no clamp), out-of-range values fail with the message
`"{v} is not in the valid range of 1 to 10."`, which does not contain the
claimed `"bigger than the maximum valid value 10"` (for `"15"`) nor
`"smaller than the minimum valid value 1"` (for `"0"`) — those phrasings
are only used when exactly one bound is set. -/
theorem rangeParamType_claimed_messages_false :
    (intRange110 false).convert "15" none none =
      .error { kind := "BadParameter",
               message := "15 is not in the valid range of 1 to 10.",
               param := none, ctx := none } ∧
    strHasSub "15 is not in the valid range of 1 to 10."
      "bigger than the maximum valid value 10" = false ∧
    (intRange110 false).convert "0" none none =
      .error { kind := "BadParameter",
               message := "0 is not in the valid range of 1 to 10.",
               param := none, ctx := none } ∧
    strHasSub "0 is not in the valid range of 1 to 10."
      "smaller than the minimum valid value 1" = false :=
  ⟨rfl, rfl, rfl, rfl⟩

/-- Claim C1 (amended): the range adapter with minimum 1, maximum 10, no
clamp over the integer adapter: `convert "5"` returns `5`; `convert "15"`
fails with `"15 is not in the valid range of 1 to 10."`; `convert "0"`
fails with `"0 is not in the valid range of 1 to 10."`. -/
theorem rangeParamType_1_10_no_clamp_behaviour :
    (intRange110 false).convert "5" none none = .ok 5 ∧
    (intRange110 false).convert "15" none none =
      .error { kind := "BadParameter",
               message := "15 is not in the valid range of 1 to 10.",
               param := none, ctx := none } ∧
    (intRange110 false).convert "0" none none =
      .error { kind := "BadParameter",
               message := "0 is not in the valid range of 1 to 10.",
               param := none, ctx := none } :=
  ⟨rfl, rfl, rfl⟩

/-- Claim C4: with clamp enabled and a successful inner conversion, a
value below the set minimum clamps to the minimum, a value above the set
maximum clamps to the maximum, and no error is ever raised. -/
theorem rangeParamType_clamp_spec {α : Type} [LinearOrder α] [ToString α]
    (t : RangeParamType α) (value : String) (param ctx : Option String) (v : α)
    (hclamp : t.clamp = true)
    (hinner : t.param_type.convert value param ctx = .ok v) :
    (∀ m, t.minimum = some m → v < m → t.convert value param ctx = .ok m) ∧
    (∀ M, t.maximum = some M → M < v → (∀ m, t.minimum = some m → ¬ v < m) →
      t.convert value param ctx = .ok M) ∧
    (∃ w, t.convert value param ctx = .ok w) := by
  refine ⟨fun m hm hlt => ?_, fun M hM hMv hmins => ?_, ?_⟩
  · simp [RangeParamType.convert, hinner, hm, hclamp, hlt]
  · rcases hm : t.minimum with _ | m
    · simp [RangeParamType.convert, hinner, hm, hM, hclamp, hMv]
    · have hnot := hmins m hm
      simp [RangeParamType.convert, hinner, hm, hM, hclamp, hMv, hnot]
  · rcases hm : t.minimum with _ | m <;> rcases hM : t.maximum with _ | M
    · exact ⟨v, by simp [RangeParamType.convert, hinner, hm, hM]⟩
    · by_cases h : M < v
      · exact ⟨M, by simp [RangeParamType.convert, hinner, hm, hM, hclamp, h]⟩
      · exact ⟨v, by simp [RangeParamType.convert, hinner, hm, hM, hclamp, h]⟩
    · by_cases h : v < m
      · exact ⟨m, by simp [RangeParamType.convert, hinner, hm, hM, hclamp, h]⟩
      · exact ⟨v, by simp [RangeParamType.convert, hinner, hm, hM, hclamp, h]⟩
    · by_cases h1 : v < m
      · exact ⟨m, by simp [RangeParamType.convert, hinner, hm, hM, hclamp, h1]⟩
      · by_cases h2 : M < v
        · exact ⟨M, by simp [RangeParamType.convert, hinner, hm, hM, hclamp, h1, h2]⟩
        · exact ⟨v, by simp [RangeParamType.convert, hinner, hm, hM, hclamp, h1, h2]⟩

/-- Witness for C4: minimum 1, maximum 10, clamp on: `convert "15"`
returns `10` and `convert "0"` returns `1`. -/
theorem rangeParamType_clamp_witness :
    (intRange110 true).convert "15" none none = .ok 10 ∧
    (intRange110 true).convert "0" none none = .ok 1 := by
  constructor
  · exact (rangeParamType_clamp_spec (intRange110 true) "15" none none 15 rfl
      (by rfl)).2.1 10 rfl (by decide)
      (by intro m hm; simp [intRange110] at hm; omega)
  · exact (rangeParamType_clamp_spec (intRange110 true) "0" none none 0 rfl
      (by rfl)).1 1 rfl (by decide)

/-- Claim C6: with the case-normalization flag set, `EnumParamType`
upper-cases the raw value before looking it up by member name, returning
the member on a hit and failing with
`"Unknown {enum_type_name} value: {value}"` (post-normalization value) on
a miss. -/
theorem enumParamType_convert_spec (t : EnumParamType) (value : String)
    (param ctx : Option String) (h : t.transform_upper = true) :
    (t.members.contains (pyUpper value) = true →
      t.convert value param ctx = .ok (pyUpper value)) ∧
    (t.members.contains (pyUpper value) = false →
      t.convert value param ctx =
        .error { kind := "BadParameter",
                 message := "Unknown " ++ t.enum_name ++ " value: " ++ pyUpper value,
                 param := none, ctx := none }) := by
  constructor
  · intro hm
    have hm2 : pyUpper value ∈ t.members := by simpa using hm
    simp [EnumParamType.convert, h, hm2]
  · intro hm
    have hm2 : pyUpper value ∉ t.members := by simpa using hm
    simp [EnumParamType.convert, h, hm2]

/-- Witness for C6: `Color` with members RED and GREEN: `convert "red"`
returns the RED member, `convert "blue"` fails with
`"Unknown Color value: BLUE"`. -/
theorem enumParamType_convert_witness :
    Color.convert "red" none none = .ok "RED" ∧
    Color.convert "blue" none none =
      .error { kind := "BadParameter", message := "Unknown Color value: BLUE",
               param := none, ctx := none } := by
  constructor
  · exact (enumParamType_convert_spec Color "red" none none rfl).1 (by rfl)
  · exact (enumParamType_convert_spec Color "blue" none none rfl).2 (by rfl)

/-- Claim C9: constructing a `ListParamType` with any non-string separator
raises `TypeError` at construction time, before any conversion exists, and
`TypeError` is not the validation-error kind. -/
theorem listParamType_init_non_string (α : Type) (pt : ParamType α) (sep : PyValue)
    (name : String) (h : ∀ s, sep ≠ PyValue.str s) :
    ListParamType.init pt sep name =
      .error { kind := "TypeError", message := "separator must be a string",
               param := none, ctx := none } ∧
    ("TypeError" : String) ≠ "BadParameter" := by
  refine ⟨?_, by decide⟩
  cases sep with
  | str s => exact absurd rfl (h s)
  | int n => rfl
  | bool b => rfl
  | none_ => rfl
  | list l => rfl

/-- Witness for C9: constructing with the integer `3` as separator. -/
theorem listParamType_init_non_string_witness :
    ListParamType.init INT (PyValue.int 3) "integer" =
      .error { kind := "TypeError", message := "separator must be a string",
               param := none, ctx := none } :=
  (listParamType_init_non_string Int INT (PyValue.int 3) "integer"
    (fun _ h => PyValue.noConfusion h)).1

/-- Claim C10: constructing a `ListParamType` with the empty string as
separator succeeds (the construction-time check only requires a string),
but every subsequent `convert` call raises `ValueError` from splitting on
the empty separator — a non-validation error, so the construction-time
check does not make the splitting step safe. -/
theorem listParamType_empty_separator (α : Type) (pt : ParamType α)
    (name value : String) (param ctx : Option String) :
    ListParamType.init pt (PyValue.str "") name =
      .ok { param_type := pt, separator := "", name := name } ∧
    ListParamType.convert { param_type := pt, separator := "", name := name }
      value param ctx =
      .error { kind := "ValueError", message := "empty separator",
               param := none, ctx := none } ∧
    ("ValueError" : String) ≠ "BadParameter" := by
  refine ⟨rfl, ?_, by decide⟩
  simp [ListParamType.convert, ListParamType.convertExpressionToList, pySplit,
    ListParamType.stripSeparator]

/-- A candidate prefix on which every adapter fails validation does not
change the outcome of the union's candidate loop. -/
theorem tryParamTypes_append_allBad {α : Type} (value : String)
    (param ctx : Option String) (pre rest : List (ParamType α))
    (h : ∀ q ∈ pre, failsValidation (q.convert value param ctx) = true) :
    tryParamTypes (pre ++ rest) value param ctx = tryParamTypes rest value param ctx := by
  induction pre with
  | nil => rfl
  | cons pt pre ih =>
    have hpt := h pt (List.mem_cons_self pt pre)
    cases hc : pt.convert value param ctx with
    | ok v => simp [failsValidation, hc] at hpt
    | error e =>
      have hk : e.kind = "BadParameter" := by simpa [failsValidation, hc] using hpt
      have ih2 := ih (fun q hq => h q (List.mem_cons_of_mem _ hq))
      simpa [tryParamTypes, hc, hk] using ih2

/-- Claim C3: the union adapter tries its candidates in order and returns
the first success; a candidate failing validation lets the next candidate
run, any other exception kind from a candidate propagates; when every
candidate fails validation the union fails with
`"{raw} is not a valid {name}"`. -/
theorem unionParamType_convert_spec {α : Type} (t : UnionParamType α)
    (value : String) (param ctx : Option String) :
    (∀ pre pt post, t.param_types = pre ++ pt :: post →
      (∀ q ∈ pre, failsValidation (q.convert value param ctx) = true) →
      (∀ v, pt.convert value param ctx = .ok v →
        t.convert value param ctx = .ok v) ∧
      (∀ e, pt.convert value param ctx = .error e → e.kind ≠ "BadParameter" →
        t.convert value param ctx = .error e)) ∧
    ((∀ q ∈ t.param_types, failsValidation (q.convert value param ctx) = true) →
      t.convert value param ctx =
        .error { kind := "BadParameter",
                 message := value ++ " is not a valid " ++ t.name,
                 param := none, ctx := none }) := by
  constructor
  · intro pre pt post heq hpre
    constructor
    · intro v hv
      unfold UnionParamType.convert
      rw [heq, tryParamTypes_append_allBad value param ctx pre _ hpre]
      simp [tryParamTypes, hv]
    · intro e he hk
      unfold UnionParamType.convert
      rw [heq, tryParamTypes_append_allBad value param ctx pre _ hpre]
      simp [tryParamTypes, he, hk]
  · intro hall
    unfold UnionParamType.convert
    have h0 := tryParamTypes_append_allBad value param ctx t.param_types [] hall
    rw [List.append_nil] at h0
    rw [h0]
    simp [tryParamTypes, ParamType.fail, UnionParamType.errorMessage]

/-- Witness for C3: `numberUnion` returns the first candidate's `3` on
`"3"` even though the second candidate would return `0`; in
`fragileUnion` on `"abc"` the integer candidate fails validation and the
next candidate's `TypeError` propagates, skipping a later candidate that
would succeed; `intUnion` on `"abc"` exhausts its candidates and fails
with the union message. -/
theorem unionParamType_convert_witness :
    numberUnion.convert "3" none none = .ok 3 ∧
    fragileUnion.convert "abc" none none =
      .error { kind := "TypeError", message := "boom", param := none, ctx := none } ∧
    intUnion.convert "abc" (some "p") (some "c") =
      .error { kind := "BadParameter", message := "abc is not a valid number",
               param := none, ctx := none } := by
  refine ⟨?_, ?_, ?_⟩
  · exact ((unionParamType_convert_spec numberUnion "3" none none).1
      [] INT [zeroAdapter] rfl (by decide)).1 3 (by rfl)
  · exact ((unionParamType_convert_spec fragileUnion "abc" none none).1
      [INT] boomAdapter [zeroAdapter] rfl (by decide)).2
      { kind := "TypeError", message := "boom" } (by rfl) (by decide)
  · exact (unionParamType_convert_spec intUnion "abc" (some "p") (some "c")).2
      (by decide)

/-- A success is in particular not a non-validation exception. -/
theorem okOrValidationError_of_resOk {α : Type} (r : Except PyExc α)
    (h : resOk r = true) : okOrValidationError r = true := by
  cases r with
  | ok v => rfl
  | error e => simp [resOk] at h

/-- The conversion loop of the list adapter, evaluated when no item
raises a non-validation exception: the failing raw items are collected in
encounter order, and so are the successfully converted values. -/
theorem convertItemsLoop_eq {α : Type} (pt : ParamType α) (items : List String)
    (h : ∀ item ∈ items, okOrValidationError (pt.convert item none none) = true) :
    convertItemsLoop pt items =
      .ok (items.filter (fun item => !resOk (pt.convert item none none)),
           items.filterMap (fun item => resValue (pt.convert item none none))) := by
  induction items with
  | nil => rfl
  | cons item rest ih =>
    have hitem := h item (List.mem_cons_self item rest)
    have hrest := ih (fun i hi => h i (List.mem_cons_of_mem _ hi))
    cases hc : pt.convert item none none with
    | ok v =>
      simp [convertItemsLoop, hc, hrest, resOk, resValue]
    | error e =>
      have hk : e.kind = "BadParameter" := by
        simpa [okOrValidationError, hc] using hitem
      simp [convertItemsLoop, hc, hk, hrest, resOk, resValue]

/-- Claim C8: when every token of the stripped-and-split input converts
successfully, the list adapter returns the converted values in token
order. -/
theorem listParamType_convert_all_ok {α : Type} (t : ListParamType α)
    (value : String) (param ctx : Option String) (hsep : t.separator ≠ "")
    (h : ∀ item ∈ pySplitList (t.stripSeparator value) t.separator,
      resOk (t.param_type.convert item none none) = true) :
    t.convert value param ctx =
      .ok ((pySplitList (t.stripSeparator value) t.separator).filterMap
        (fun item => resValue (t.param_type.convert item none none))) := by
  have hall : ∀ item ∈ pySplitList (t.stripSeparator value) t.separator,
      okOrValidationError (t.param_type.convert item none none) = true :=
    fun i hi => okOrValidationError_of_resOk _ (h i hi)
  have hloop := convertItemsLoop_eq t.param_type
    (pySplitList (t.stripSeparator value) t.separator) hall
  have hfilter : (pySplitList (t.stripSeparator value) t.separator).filter
      (fun item => !resOk (t.param_type.convert item none none)) = [] := by
    rw [List.filter_eq_nil_iff]
    intro a ha
    simp [h a ha]
  unfold ListParamType.convert ListParamType.convertExpressionToList
  simp [pySplit, hsep, hloop, hfilter]

/-- Claim C2: when every token survives the inner adapter without a
non-validation exception and at least one token fails conversion, the
list adapter fails all-or-nothing with
`"These items are not {name}: {errors}"`, listing exactly the failing raw
tokens in encounter order. -/
theorem listParamType_convert_some_bad {α : Type} (t : ListParamType α)
    (value : String) (param ctx : Option String) (hsep : t.separator ≠ "")
    (hall : ∀ item ∈ pySplitList (t.stripSeparator value) t.separator,
      okOrValidationError (t.param_type.convert item none none) = true)
    (hbad : ∃ item ∈ pySplitList (t.stripSeparator value) t.separator,
      resOk (t.param_type.convert item none none) = false) :
    t.convert value param ctx =
      .error { kind := "BadParameter",
               message := t.errorMessage
                 ((pySplitList (t.stripSeparator value) t.separator).filter
                   (fun item => !resOk (t.param_type.convert item none none))),
               param := param, ctx := ctx } := by
  have hloop := convertItemsLoop_eq t.param_type
    (pySplitList (t.stripSeparator value) t.separator) hall
  have hfilter : (pySplitList (t.stripSeparator value) t.separator).filter
      (fun item => !resOk (t.param_type.convert item none none)) ≠ [] := by
    rw [Ne, List.filter_eq_nil_iff]
    push_neg
    obtain ⟨a, ha, hfa⟩ := hbad
    exact ⟨a, ha, by simp [hfa]⟩
  unfold ListParamType.convert ListParamType.convertExpressionToList
  simp [pySplit, hsep, hloop, hfilter, ParamType.fail]

/-- Witness for C2: the comma-separated integer list on `",1,2,x,"`:
outer commas are stripped, the tokens are `1`, `2`, `x`, and conversion
fails listing exactly `x`. -/
theorem listParamType_convert_some_bad_witness :
    pySplitList (intList.stripSeparator ",1,2,x,") intList.separator =
      ["1", "2", "x"] ∧
    intList.convert ",1,2,x," none none =
      .error { kind := "BadParameter",
               message := "These items are not integer: [" ++ squote ++ "x" ++ squote ++ "]",
               param := none, ctx := none } := by
  refine ⟨by rfl, ?_⟩
  have h := listParamType_convert_some_bad intList ",1,2,x," none none
    (by decide) (by decide) (by decide)
  exact h.trans (by rfl)

/-- Witness for C8: the comma-separated integer list on `"1,2,3"` returns
`[1, 2, 3]`. -/
theorem listParamType_convert_all_ok_witness :
    intList.convert "1,2,3" none none = .ok [1, 2, 3] := by
  have h := listParamType_convert_all_ok intList "1,2,3" none none
    (by decide) (by decide)
  exact h.trans (by rfl)

/-- Claim C7 is false as stated: when every candidate of a union fails
validation, the union's own failure is raised without forwarding the
parameter and context that were passed to `convert` — here `convert` is
called with parameter `p` and context `c`, yet the error carries
neither. -/
theorem unionParamType_drops_param_ctx :
    intUnion.convert "abc" (some "p") (some "c") =
      .error { kind := "BadParameter", message := "abc is not a valid number",
               param := none, ctx := none } ∧
    (none : Option String) ≠ some "p" ∧ (none : Option String) ≠ some "c" :=
  ⟨rfl, by decide, by decide⟩

/-- Claim C7 (amended): the coercion, validator, range and list adapters
attach the parameter and context that were passed to `convert` to the
validation errors they raise; the union adapter's all-candidates-failed
error and the enumeration adapter's unknown-member error carry no
parameter and no context. -/
theorem convert_failure_param_ctx_spec {α β : Type} [LinearOrder α] [ToString α] :
    (∀ (t : BaseParamType β) value (param ctx : Option String) e,
      t.type_fn value = .error e → t.errors.contains e.kind = true →
      t.convert value param ctx =
        .error { kind := "BadParameter", message := t.errorMessage value,
                 param := param, ctx := ctx }) ∧
    (∀ (t : ValidatorParamType) value (param ctx : Option String),
      t.callback value = false →
      t.convert value param ctx =
        .error { kind := "BadParameter",
                 message := value ++ " is not a valid " ++ t.name,
                 param := param, ctx := ctx }) ∧
    (∀ (t : RangeParamType α) value (param ctx : Option String) v e,
      t.param_type.convert value param ctx = .ok v →
      t.convert value param ctx = .error e →
      e.param = param ∧ e.ctx = ctx) ∧
    (∀ (t : ListParamType β) value (param ctx : Option String),
      t.separator ≠ "" →
      (∀ item ∈ pySplitList (t.stripSeparator value) t.separator,
        okOrValidationError (t.param_type.convert item none none) = true) →
      (∃ item ∈ pySplitList (t.stripSeparator value) t.separator,
        resOk (t.param_type.convert item none none) = false) →
      ∃ msg, t.convert value param ctx =
        .error { kind := "BadParameter", message := msg,
                 param := param, ctx := ctx }) ∧
    (∀ (t : UnionParamType β) value (param ctx : Option String),
      (∀ q ∈ t.param_types, failsValidation (q.convert value param ctx) = true) →
      t.convert value param ctx =
        .error { kind := "BadParameter", message := t.errorMessage value,
                 param := none, ctx := none }) ∧
    (∀ (t : EnumParamType) value (param ctx : Option String) e,
      t.convert value param ctx = .error e → e.param = none ∧ e.ctx = none) := by
  refine ⟨?_, ?_, ?_, ?_, ?_, ?_⟩
  · intro t value param ctx e he hk
    have hk2 : e.kind ∈ t.errors := by simpa using hk
    simp [BaseParamType.convert, BaseParamType.errorMessage, ParamType.fail, he, hk2]
  · intro t value param ctx hcb
    simp [ValidatorParamType.convert, ParamType.fail, hcb]
  · intro t value param ctx v e hinner herr
    unfold RangeParamType.convert at herr
    rw [hinner] at herr
    simp only [ParamType.fail] at herr
    split at herr
    · exact Except.noConfusion herr
    · split at herr
      · exact Except.noConfusion herr
      · split at herr
        · split at herr
          · injection herr with h; subst h; exact ⟨rfl, rfl⟩
          · injection herr with h; subst h; exact ⟨rfl, rfl⟩
          · injection herr with h; subst h; exact ⟨rfl, rfl⟩
          · exact Except.noConfusion herr
        · exact Except.noConfusion herr
  · intro t value param ctx hsep hall hbad
    refine ⟨t.errorMessage ((pySplitList (t.stripSeparator value) t.separator).filter
      (fun item => !resOk (t.param_type.convert item none none))), ?_⟩
    have hloop := convertItemsLoop_eq t.param_type
      (pySplitList (t.stripSeparator value) t.separator) hall
    have hfilter : (pySplitList (t.stripSeparator value) t.separator).filter
        (fun item => !resOk (t.param_type.convert item none none)) ≠ [] := by
      rw [Ne, List.filter_eq_nil_iff]
      push_neg
      obtain ⟨a, ha, hfa⟩ := hbad
      exact ⟨a, ha, by simp [hfa]⟩
    unfold ListParamType.convert ListParamType.convertExpressionToList
    simp [pySplit, hsep, hloop, hfilter, ParamType.fail]
  · intro t value param ctx hall
    unfold UnionParamType.convert
    have h0 := tryParamTypes_append_allBad value param ctx t.param_types [] hall
    rw [List.append_nil] at h0
    rw [h0]
    simp [tryParamTypes, ParamType.fail]
  · intro t value param ctx e herr
    unfold EnumParamType.convert at herr
    dsimp only at herr
    split at herr <;> split at herr <;>
      first
        | exact Except.noConfusion herr
        | (injection herr with h; subst h; exact ⟨rfl, rfl⟩)

/-- Witness for C7 (amended): the nonempty-string validator rejecting
`""` forwards the parameter `p` and context `c` it was given, while the
single-candidate union rejecting `"abc"` carries neither. -/
theorem convert_failure_param_ctx_witness :
    nonEmptyValidator.convert "" (some "p") (some "c") =
      .error { kind := "BadParameter", message := " is not a valid nonempty string",
               param := some "p", ctx := some "c" } ∧
    intUnion.convert "abc" (some "p") (some "c") =
      .error { kind := "BadParameter", message := "abc is not a valid number",
               param := none, ctx := none } := by
  constructor
  · exact (convert_failure_param_ctx_spec (α := Int) (β := Int)).2.1
      nonEmptyValidator "" (some "p") (some "c") (by rfl)
  · exact (convert_failure_param_ctx_spec (α := Int) (β := Int)).2.2.2.2.1
      intUnion "abc" (some "p") (some "c") (by decide)

end ClickParams
